import Mathlib

/-!
Verification of the flappy_claude simulation core.

This file gives a shallow embedding of the deterministic simulation engine of
the flappy_claude repository (`config.py`, `game.py`, `ipc.py`), together with
models of the entity records and physics helpers that `game.py` imports from
modules not present in the source tree (`entities.py`, `physics.py`,
`scores.py`); those models follow the specification's description and are
marked `Modelled from the spec:` in their doc comments.

Python floats are embedded as rationals (every constant in the configuration
is exactly representable), Python ints as `Int`, and the in-place mutations of
`game.py` as explicit state passing.  The high-score file writes performed by
`update_game` are returned as an explicit list of written values.
-/

/-- Truncation of a rational toward zero, the semantics of Python's `int()`
cast applied to a float: floor for nonnegative values, ceiling for negative
ones. -/
def ratTrunc (q : ℚ) : ℤ :=
  if 0 ≤ q then ⌊q⌋ else ⌈q⌉

theorem ratTrunc_eq_floor {q : ℚ} (h : 0 ≤ q) : ratTrunc q = ⌊q⌋ := by
  simp [ratTrunc, h]

theorem ratTrunc_intCast (n : ℤ) : ratTrunc (n : ℚ) = n := by
  rcases le_or_lt 0 (n : ℚ) with h | h
  · rw [ratTrunc_eq_floor h, Int.floor_intCast]
  · simp [ratTrunc, not_le.mpr h, Int.ceil_intCast]

/-- Truncation of a half-integer `n + 1/2` with `0 ≤ n` is `n`. -/
theorem ratTrunc_int_add_half (n : ℤ) (hn : 0 ≤ n) :
    ratTrunc ((n : ℚ) + 1 / 2) = n := by
  have h0 : (0 : ℚ) ≤ (n : ℚ) + 1 / 2 := by
    have : (0 : ℚ) ≤ (n : ℚ) := by exact_mod_cast hn
    linarith
  rw [ratTrunc_eq_floor h0]
  rw [Int.floor_eq_iff]
  constructor
  · linarith
  · linarith

/-- Truncation toward zero is monotone. -/
theorem ratTrunc_mono {q r : ℚ} (h : q ≤ r) : ratTrunc q ≤ ratTrunc r := by
  unfold ratTrunc
  by_cases hq : 0 ≤ q
  · rw [if_pos hq, if_pos (le_trans hq h)]
    exact Int.floor_mono h
  · rw [if_neg hq]
    by_cases hr : 0 ≤ r
    · rw [if_pos hr]
      calc ⌈q⌉ ≤ 0 := Int.ceil_le.mpr (by exact_mod_cast le_of_not_le hq)
        _ ≤ ⌊r⌋ := Int.floor_nonneg.mpr hr
    · rw [if_neg hr]
      exact Int.ceil_mono h

/-- The configuration record of `config.py`, with the default values of
`DEFAULT_CONFIG`. -/
structure Config where
  gravity : ℚ := 1 / 2
  flap_strength : ℚ := -2
  terminal_velocity : ℚ := 8
  pipe_speed : ℤ := 1
  pipe_gap : ℤ := 7
  pipe_spacing : ℤ := 25
  pipe_width : ℤ := 4
  fps : ℤ := 30
  screen_width : ℤ := 60
  screen_height : ℤ := 20
  death_display_time : ℚ := 1
  high_score_path : String := "~/.flappy-claude/highscore"
  signal_file_path : String := "/tmp/flappy-claude-signal"
deriving DecidableEq

/-- The default configuration instance of `config.py`. -/
def DEFAULT_CONFIG : Config := {}

/-- Modelled from the spec: the session status enum of the missing
`entities` module (`Playing`, `Dead`, `Prompted`, `Exiting`). -/
inductive GameStatus where
  | playing
  | dead
  | prompted
  | exiting
deriving DecidableEq

/-- Modelled from the spec: the game-mode enum of the missing `entities`
module (`SingleLife` versus `AutoRestart`). -/
inductive GameMode where
  | single_life
  | auto_restart
deriving DecidableEq

/-- Modelled from the spec: the `Bird` record of the missing `entities`
module — fixed integer column, real-valued row and vertical velocity. -/
structure Bird where
  x : ℤ
  y : ℚ
  velocity : ℚ
deriving DecidableEq

/-- Modelled from the spec: the `Pipe` (obstacle) record of the missing
`entities` module — column, gap-center row, gap height, width and a
`passed` flag; the width is taken verbatim from the configuration at
spawn time. -/
structure Pipe where
  x : ℤ
  gap_y : ℤ
  gap_size : ℤ
  width : ℤ
  passed : Bool
deriving DecidableEq

/-- Modelled from the spec: the session-state record of the missing
`entities` module, owning the bird, the ordered obstacle list, the score,
the high score, the status, the mode and the ready flag. -/
structure GameState where
  bird : Bird
  pipes : List Pipe
  score : ℤ
  high_score : ℤ
  status : GameStatus
  mode : GameMode
  claude_ready : Bool
deriving DecidableEq

/-- Modelled from the spec: `apply_gravity` of the missing `physics`
module — `velocity' = min (velocity + gravity) terminalVelocity`,
`y' = y + velocity'`. -/
def apply_gravity (bird : Bird) (config : Config) : Bird :=
  let v := min (bird.velocity + config.gravity) config.terminal_velocity
  { bird with velocity := v, y := bird.y + v }

/-- Modelled from the spec: `Bird.flap` of the missing `entities` module —
sets the velocity to the configured flap impulse, leaving `y` unchanged. -/
def Bird.flap (bird : Bird) (config : Config) : Bird :=
  { bird with velocity := config.flap_strength }

/-- Modelled from the spec: `Pipe.update` of the missing `entities` module —
the obstacle advances left by `pipe_speed` each frame. -/
def Pipe.update (pipe : Pipe) (config : Config) : Pipe :=
  { pipe with x := pipe.x - config.pipe_speed }

/-- Modelled from the spec: `Pipe.mark_passed` of the missing `entities`
module — sets the `passed` flag. -/
def Pipe.mark_passed (pipe : Pipe) : Pipe :=
  { pipe with passed := true }

/-- Computation `int(pipe.gap_y - pipe.gap_size / 2)` from `_is_pipe_at` in `game.py`:
the first row of the gap band. -/
def gapTop (pipe : Pipe) : ℤ :=
  ratTrunc ((pipe.gap_y : ℚ) - (pipe.gap_size : ℚ) / 2)

/-- Computation `int(pipe.gap_y + pipe.gap_size / 2)` from `_is_pipe_at` in `game.py`:
the last row of the gap band. -/
def gapBottom (pipe : Pipe) : ℤ :=
  ratTrunc ((pipe.gap_y : ℚ) + (pipe.gap_size : ℚ) / 2)

/-- Function `_is_pipe_at` from `game.py`: a pipe occupies cell `(col, row)` iff the
column is inside `[pipe.x, pipe.x + pipe_width)` and the row is outside the
inclusive gap band `[gap_top, gap_bottom]`. -/
def is_pipe_at (pipe : Pipe) (config : Config) (col row : ℤ) : Bool :=
  if col < pipe.x ∨ col ≥ pipe.x + config.pipe_width then false
  else if gapTop pipe ≤ row ∧ row ≤ gapBottom pipe then false
  else true

/-- The bird's integer grid row, `int(bird.y)` as computed by the renderer
of `game.py`. -/
def birdRow (bird : Bird) : ℤ :=
  ratTrunc bird.y

/-- Modelled from the spec: the obstacle-overlap test of `check_collision`
in the missing `physics` module — true iff the bird's column falls within
`[pipe.x, pipe.x + pipe_width)` and the bird's row falls outside the gap
band `[gapTop, gapBottom]` (bounds computed with truncation toward zero). -/
def isInsideObstacle (bird : Bird) (pipe : Pipe) (config : Config) : Bool :=
  decide (pipe.x ≤ bird.x ∧ bird.x < pipe.x + config.pipe_width) &&
    ! decide (gapTop pipe ≤ birdRow bird ∧ birdRow bird ≤ gapBottom pipe)

/-- Modelled from the spec: `check_collision` of the missing `physics`
module — true iff the bird's row is out of `[0, screen_height - 1]` or the
bird is inside some live obstacle. -/
def check_collision (bird : Bird) (pipes : List Pipe) (screen_height : ℤ)
    (config : Config) : Bool :=
  decide (birdRow bird < 0 ∨ birdRow bird > screen_height - 1) ||
    pipes.any (fun p => isInsideObstacle bird p config)

/-- Modelled from the spec: `check_pipe_passed` of the missing `physics`
module — the bird's column has advanced strictly past the obstacle's
trailing edge. -/
def check_pipe_passed (bird : Bird) (pipe : Pipe) : Bool :=
  decide (bird.x > pipe.x + pipe.width - 1)

/-- Model of Python's `random.randint a b` (inclusive on both ends): the
seed selects one value of the range `[a, b]`; every value of the range is
selected by some seed. -/
def randint (a b : ℤ) (seed : ℕ) : ℤ :=
  a + ((seed % (b - a + 1).toNat : ℕ) : ℤ)

/-- Computation `config.pipe_gap // 2 + 2` from `spawn_pipe` in `game.py` (Python `//`
is floor division). -/
def pipeMargin (config : Config) : ℤ :=
  config.pipe_gap.fdiv 2 + 2

/-- Function `spawn_pipe` from `game.py`: a new pipe at the right edge of the
screen, with a random gap center avoiding the vertical edges; the caller
appends it to the obstacle list. -/
def spawn_pipe (config : Config) (seed : ℕ) : Pipe :=
  { x := config.screen_width
    gap_y := randint (pipeMargin config) (config.screen_height - pipeMargin config) seed
    gap_size := config.pipe_gap
    width := config.pipe_width
    passed := false }

/-- The pipe-advance pass of `update_game` in `game.py`: every pipe moves
left by `pipe_speed`. -/
def advancePipes (config : Config) (pipes : List Pipe) : List Pipe :=
  pipes.map (fun p => p.update config)

/-- The retirement pass of `update_game` in `game.py`:
`[p for p in state.pipes if p.x > -config.pipe_width]`. -/
def keepPipes (config : Config) (pipes : List Pipe) : List Pipe :=
  pipes.filter (fun p => decide (p.x > -config.pipe_width))

/-- The spawn trigger of `update_game` in `game.py`:
`not state.pipes or state.pipes[-1].x < screen_width - pipe_spacing`. -/
def needSpawn (config : Config) (pipes : List Pipe) : Bool :=
  match pipes.getLast? with
  | none => true
  | some p => decide (p.x < config.screen_width - config.pipe_spacing)

/-- The spawn pass of `update_game` in `game.py`: append exactly one new
pipe when the spawn trigger fires. -/
def pipesAfterSpawn (config : Config) (seed : ℕ) (pipes : List Pipe) : List Pipe :=
  if needSpawn config pipes then pipes ++ [spawn_pipe config seed] else pipes

/-- Accumulator of the scoring loop of `update_game` in `game.py`: the
pipes processed so far, the running score and high score, and the list of
high-score values written to the store so far. -/
structure ScoreAcc where
  pipes : List Pipe
  score : ℤ
  high_score : ℤ
  writes : List ℤ
deriving DecidableEq

/-- The guard of the scoring loop in `game.py`:
`not pipe.passed and check_pipe_passed(state.bird, pipe)`. -/
def passEvent (bird : Bird) (pipe : Pipe) : Bool :=
  !pipe.passed && check_pipe_passed bird pipe

/-- The effect of one scoring-loop iteration on one pipe: mark it passed
exactly when the guard fires. -/
def passMark (bird : Bird) (pipe : Pipe) : Pipe :=
  if passEvent bird pipe then pipe.mark_passed else pipe

/-- One iteration of the scoring loop of `update_game` in `game.py`: on a
pass event the pipe is marked, the score is incremented by one, and when
the new score exceeds the high score the high score is updated and
immediately written to the store. -/
def scoreStep (bird : Bird) (acc : ScoreAcc) (pipe : Pipe) : ScoreAcc :=
  if passEvent bird pipe then
    if acc.score + 1 > acc.high_score then
      { pipes := acc.pipes ++ [pipe.mark_passed]
        score := acc.score + 1
        high_score := acc.score + 1
        writes := acc.writes ++ [acc.score + 1] }
    else
      { acc with pipes := acc.pipes ++ [pipe.mark_passed], score := acc.score + 1 }
  else
    { acc with pipes := acc.pipes ++ [pipe] }

/-- The whole scoring loop of `update_game` in `game.py`, over the pipe
list in order. -/
def runScoring (bird : Bird) (pipes : List Pipe) (score high_score : ℤ) : ScoreAcc :=
  pipes.foldl (scoreStep bird)
    { pipes := [], score := score, high_score := high_score, writes := [] }

/-- Function `update_game` from `game.py` as one per-frame transition: returns the
next state and the list of high-score values written to the persistent
store during the frame.  A non-Playing frame returns immediately. -/
def update_game (config : Config) (seed : ℕ) (state : GameState) :
    GameState × List ℤ :=
  if state.status ≠ GameStatus.playing then (state, [])
  else
    let bird := apply_gravity state.bird config
    let pipes1 := pipesAfterSpawn config seed
      (keepPipes config (advancePipes config state.pipes))
    let acc := runScoring bird pipes1 state.score state.high_score
    let status1 :=
      if check_collision bird acc.pipes config.screen_height config
      then GameStatus.dead else state.status
    ({ state with
        bird := bird
        pipes := acc.pipes
        score := acc.score
        high_score := acc.high_score
        status := status1 }, acc.writes)

/-- Modelled from the spec: the initial bird of the missing `entities`
module; the spec pins down only that reset restores the initial
position and velocity, so a fixed start cell is used. -/
def initial_bird (config : Config) : Bird :=
  { x := config.screen_width / 4, y := (config.screen_height : ℚ) / 2, velocity := 0 }

/-- Modelled from the spec: `GameState.reset` of the missing `entities`
module — score to zero, obstacle list cleared, bird re-created, ready flag
cleared, status back to Playing; the high score is preserved. -/
def GameState.reset (state : GameState) (config : Config) : GameState :=
  { state with
      bird := initial_bird config
      pipes := []
      score := 0
      claude_ready := false
      status := GameStatus.playing }

/-- One externally driven session event: a simulation step (with the rng
seed used by a potential spawn), or the auto-restart reset. -/
inductive SessionEvent where
  | step (seed : ℕ)
  | reset
deriving DecidableEq

/-- Applying one session event to a state. -/
def applyEvent (config : Config) (state : GameState) (e : SessionEvent) : GameState :=
  match e with
  | SessionEvent.step seed => (update_game config seed state).1
  | SessionEvent.reset => state.reset config

/-- Function `handle_input` from `game.py`: quit on `q`/Ctrl-C, flap on space while
Playing, and answer the prompt with `y`/`n` while Prompted. -/
def handle_input (config : Config) (state : GameState) (key : Option Char) :
    GameState :=
  match key with
  | none => state
  | some k =>
    let kl := k.toLower
    if kl = 'q' ∨ k = Char.ofNat 3 then
      { state with status := GameStatus.exiting }
    else if k = ' ' ∧ state.status = GameStatus.playing then
      { state with bird := state.bird.flap config }
    else if (kl = 'y' ∨ kl = 'n') ∧ state.status = GameStatus.prompted then
      if kl = 'y' then { state with status := GameStatus.exiting }
      else { state with claude_ready := false, status := GameStatus.playing }
    else state

/-- The outcome of the filesystem accesses performed by
`check_signal_file` in `ipc.py`: the file is absent, or reading it raises
an `OSError`/`IOError`, or reading succeeds with some text. -/
inductive SignalRead where
  | missing
  | ioError
  | content (text : String)
deriving DecidableEq

/-- The body of `check_signal_file` in `ipc.py` before its `except`
handler: `False` when the file does not exist, otherwise the stripped
content compared with `"ready"`; a raised `OSError`/`IOError` is the
`Except.error` outcome. -/
def checkSignalBody (r : SignalRead) : Except Unit Bool :=
  match r with
  | SignalRead.missing => Except.ok false
  | SignalRead.ioError => Except.error ()
  | SignalRead.content text => Except.ok (text.trim == "ready")

/-- Function `check_signal_file` from `ipc.py`: the body wrapped in the
`try`/`except (OSError, IOError)` handler that turns any I/O failure into
`False`. -/
def check_signal_file (r : SignalRead) : Bool :=
  match checkSignalBody r with
  | Except.ok b => b
  | Except.error _ => false

/-! ### Evaluation helpers -/

theorem ratTrunc_eval_int (q : ℚ) (n : ℤ) (h : q = (n : ℚ)) : ratTrunc q = n := by
  rw [h, ratTrunc_intCast]

theorem ratTrunc_eval_half (q : ℚ) (n : ℤ) (h : q = (n : ℚ) + 1 / 2) (hn : 0 ≤ n) :
    ratTrunc q = n := by
  rw [h, ratTrunc_int_add_half n hn]

theorem dcGravity : DEFAULT_CONFIG.gravity = 1 / 2 := rfl

theorem dcFlapStrength : DEFAULT_CONFIG.flap_strength = -2 := rfl

theorem dcTerminalVelocity : DEFAULT_CONFIG.terminal_velocity = 8 := rfl

theorem dcPipeSpeed : DEFAULT_CONFIG.pipe_speed = 1 := rfl

theorem dcPipeGap : DEFAULT_CONFIG.pipe_gap = 7 := rfl

theorem dcPipeSpacing : DEFAULT_CONFIG.pipe_spacing = 25 := rfl

theorem dcPipeWidth : DEFAULT_CONFIG.pipe_width = 4 := rfl

theorem dcScreenWidth : DEFAULT_CONFIG.screen_width = 60 := rfl

theorem dcScreenHeight : DEFAULT_CONFIG.screen_height = 20 := rfl

/-! ### Structural lemmas about the scoring loop -/

theorem apply_gravity_x (bird : Bird) (config : Config) :
    (apply_gravity bird config).x = bird.x := rfl

theorem passMark_x (bird : Bird) (pipe : Pipe) : (passMark bird pipe).x = pipe.x := by
  unfold passMark Pipe.mark_passed
  split <;> rfl

theorem passMark_passed (bird : Bird) (pipe : Pipe) :
    (passMark bird pipe).passed = (pipe.passed || check_pipe_passed bird pipe) := by
  unfold passMark passEvent Pipe.mark_passed
  rcases hp : pipe.passed <;> rcases hc : check_pipe_passed bird pipe <;> simp [hp, hc]

theorem passMark_of_passed (bird : Bird) (pipe : Pipe) (h : pipe.passed = true) :
    passMark bird pipe = pipe := by
  unfold passMark passEvent
  simp [h]

/-- Full characterization of the scoring fold, for an arbitrary starting
accumulator: the pipes come out in order with exactly the guarded ones
marked, the score grows by the number of pass events, the high score is
non-decreasing, stays an upper bound of the score, never exceeds the
larger of its old value and the new score, and either nothing was written
(high score untouched) or the last written value is the new high score. -/
theorem scoring_foldl_spec (bird : Bird) (pipes : List Pipe) :
    ∀ acc : ScoreAcc,
      (pipes.foldl (scoreStep bird) acc).pipes =
          acc.pipes ++ pipes.map (passMark bird) ∧
      (pipes.foldl (scoreStep bird) acc).score =
          acc.score + (pipes.countP (passEvent bird) : ℤ) ∧
      acc.high_score ≤ (pipes.foldl (scoreStep bird) acc).high_score ∧
      (acc.score ≤ acc.high_score →
        (pipes.foldl (scoreStep bird) acc).score ≤
          (pipes.foldl (scoreStep bird) acc).high_score) ∧
      (pipes.foldl (scoreStep bird) acc).high_score ≤
          max acc.high_score (pipes.foldl (scoreStep bird) acc).score ∧
      (((pipes.foldl (scoreStep bird) acc).high_score = acc.high_score ∧
          (pipes.foldl (scoreStep bird) acc).writes = acc.writes) ∨
        (acc.high_score < (pipes.foldl (scoreStep bird) acc).high_score ∧
          (pipes.foldl (scoreStep bird) acc).writes.getLast? =
            some (pipes.foldl (scoreStep bird) acc).high_score)) ∧
      (acc.high_score < (pipes.foldl (scoreStep bird) acc).high_score →
        (pipes.foldl (scoreStep bird) acc).score ≤
          (pipes.foldl (scoreStep bird) acc).high_score) := by
  induction pipes with
  | nil =>
    intro acc
    exact ⟨by simp, by simp, le_refl _, fun h => h, by simp, Or.inl ⟨rfl, rfl⟩,
      fun h => absurd h (lt_irrefl _)⟩
  | cons p rest ih =>
    intro acc
    rw [List.foldl_cons]
    obtain ⟨ih1, ih2, ih3, ih4, ih5, ih6, ih7⟩ := ih (scoreStep bird acc p)
    have hcnt : (rest.foldl (scoreStep bird) (scoreStep bird acc p)).score =
        (scoreStep bird acc p).score + (rest.countP (passEvent bird) : ℤ) := ih2
    rcases hE : passEvent bird p with _ | _
    · -- no pass event: the pipe is appended untouched
      have hstep : scoreStep bird acc p = { acc with pipes := acc.pipes ++ [p] } := by
        unfold scoreStep
        rw [hE]
        simp
      rw [hstep] at ih1 ih2 ih3 ih4 ih5 ih6 ih7 ⊢
      dsimp only at ih1 ih2 ih3 ih4 ih5 ih6 ih7
      refine ⟨?_, ?_, ih3, fun h => ih4 h, ih5, ih6, fun h => ih7 h⟩
      · rw [ih1]
        simp [passMark, hE]
      · rw [ih2]
        simp [List.countP_cons, hE]
    · -- a pass event: the pipe is marked and the score incremented
      have hpm : passMark bird p = p.mark_passed := by unfold passMark; rw [hE]; simp
      by_cases hR : acc.score + 1 > acc.high_score
      · -- new record: high score updated and written
        have hstep : scoreStep bird acc p =
            { pipes := acc.pipes ++ [p.mark_passed], score := acc.score + 1,
              high_score := acc.score + 1, writes := acc.writes ++ [acc.score + 1] } := by
          unfold scoreStep
          rw [hE]
          simp [hR]
        rw [hstep] at ih1 ih2 ih3 ih4 ih5 ih6 ih7 hcnt ⊢
        dsimp only at ih1 ih2 ih3 ih4 ih5 ih6 ih7
        refine ⟨?_, ?_, ?_, ?_, ?_, ?_, fun _ => ih4 (le_refl _)⟩
        · rw [ih1]
          simp [hpm]
        · rw [ih2]
          simp only [List.countP_cons, hE, if_pos]
          push_cast
          ring
        · omega
        · intro _
          exact ih4 (le_refl _)
        · have hsc : acc.score + 1 ≤ (rest.foldl (scoreStep bird)
              ({ pipes := acc.pipes ++ [p.mark_passed], score := acc.score + 1,
                 high_score := acc.score + 1,
                 writes := acc.writes ++ [acc.score + 1] } : ScoreAcc)).score := by
            rw [ih2]
            omega
          rw [max_eq_right hsc] at ih5
          exact le_trans ih5 (le_max_right _ _)
        · rcases ih6 with ⟨h1, h2⟩ | ⟨h1, h2⟩
          · exact Or.inr ⟨by omega, by rw [h2, h1]; exact List.getLast?_concat _⟩
          · exact Or.inr ⟨by omega, h2⟩
      · -- event without a record: high score and writes untouched
        have hstep : scoreStep bird acc p =
            { acc with pipes := acc.pipes ++ [p.mark_passed], score := acc.score + 1 } := by
          unfold scoreStep
          rw [hE]
          simp [hR]
        rw [hstep] at ih1 ih2 ih3 ih4 ih5 ih6 ih7 ⊢
        dsimp only at ih1 ih2 ih3 ih4 ih5 ih6 ih7
        refine ⟨?_, ?_, ih3, ?_, ih5, ih6, fun _ => ih4 (by omega)⟩
        · rw [ih1]
          simp [hpm]
        · rw [ih2]
          simp only [List.countP_cons, hE, if_pos]
          push_cast
          ring
        · intro _
          exact ih4 (by omega)

theorem runScoring_pipes (bird : Bird) (pipes : List Pipe) (score high_score : ℤ) :
    (runScoring bird pipes score high_score).pipes = pipes.map (passMark bird) := by
  have h := (scoring_foldl_spec bird pipes
    { pipes := [], score := score, high_score := high_score, writes := [] }).1
  simpa using h

theorem runScoring_score (bird : Bird) (pipes : List Pipe) (score high_score : ℤ) :
    (runScoring bird pipes score high_score).score =
      score + (pipes.countP (passEvent bird) : ℤ) := by
  have h := (scoring_foldl_spec bird pipes
    { pipes := [], score := score, high_score := high_score, writes := [] }).2.1
  simpa using h

theorem runScoring_high_score_le (bird : Bird) (pipes : List Pipe) (score high_score : ℤ) :
    high_score ≤ (runScoring bird pipes score high_score).high_score :=
  (scoring_foldl_spec bird pipes
    { pipes := [], score := score, high_score := high_score, writes := [] }).2.2.1

theorem runScoring_high_score_max (bird : Bird) (pipes : List Pipe) (score high_score : ℤ) :
    (runScoring bird pipes score high_score).high_score ≤
      max high_score (runScoring bird pipes score high_score).score :=
  (scoring_foldl_spec bird pipes
    { pipes := [], score := score, high_score := high_score, writes := [] }).2.2.2.2.1

theorem runScoring_writes (bird : Bird) (pipes : List Pipe) (score high_score : ℤ) :
    ((runScoring bird pipes score high_score).high_score = high_score ∧
      (runScoring bird pipes score high_score).writes = []) ∨
    (high_score < (runScoring bird pipes score high_score).high_score ∧
      (runScoring bird pipes score high_score).writes.getLast? =
        some (runScoring bird pipes score high_score).high_score) :=
  (scoring_foldl_spec bird pipes
    { pipes := [], score := score, high_score := high_score, writes := [] }).2.2.2.2.2.1

theorem runScoring_record_score (bird : Bird) (pipes : List Pipe) (score high_score : ℤ)
    (h : high_score < (runScoring bird pipes score high_score).high_score) :
    (runScoring bird pipes score high_score).score ≤
      (runScoring bird pipes score high_score).high_score :=
  (scoring_foldl_spec bird pipes
    { pipes := [], score := score, high_score := high_score, writes := [] }).2.2.2.2.2.2 h

/-- Unfolding `update_game` on a Playing state, written out stage by stage. -/
theorem update_game_playing (config : Config) (seed : ℕ) (state : GameState)
    (h : state.status = GameStatus.playing) :
    update_game config seed state =
      ({ state with
          bird := apply_gravity state.bird config
          pipes := (runScoring (apply_gravity state.bird config)
            (pipesAfterSpawn config seed (keepPipes config (advancePipes config state.pipes)))
            state.score state.high_score).pipes
          score := (runScoring (apply_gravity state.bird config)
            (pipesAfterSpawn config seed (keepPipes config (advancePipes config state.pipes)))
            state.score state.high_score).score
          high_score := (runScoring (apply_gravity state.bird config)
            (pipesAfterSpawn config seed (keepPipes config (advancePipes config state.pipes)))
            state.score state.high_score).high_score
          status :=
            if check_collision (apply_gravity state.bird config)
                (runScoring (apply_gravity state.bird config)
                  (pipesAfterSpawn config seed
                    (keepPipes config (advancePipes config state.pipes)))
                  state.score state.high_score).pipes
                config.screen_height config
            then GameStatus.dead else state.status },
        (runScoring (apply_gravity state.bird config)
          (pipesAfterSpawn config seed (keepPipes config (advancePipes config state.pipes)))
          state.score state.high_score).writes) := by
  unfold update_game
  rw [if_neg (by simp [h])]

theorem spawn_pipe_x (config : Config) (seed : ℕ) :
    (spawn_pipe config seed).x = config.screen_width := rfl

theorem spawn_pipe_passed (config : Config) (seed : ℕ) :
    (spawn_pipe config seed).passed = false := rfl

theorem spawn_pipe_gap_size (config : Config) (seed : ℕ) :
    (spawn_pipe config seed).gap_size = config.pipe_gap := rfl

theorem spawn_pipe_width (config : Config) (seed : ℕ) :
    (spawn_pipe config seed).width = config.pipe_width := rfl

theorem spawn_pipe_gap_y (config : Config) (seed : ℕ) :
    (spawn_pipe config seed).gap_y =
      randint (pipeMargin config) (config.screen_height - pipeMargin config) seed := rfl

theorem map_x_passMark (bird : Bird) (l : List Pipe) :
    (l.map (passMark bird)).map (fun p => p.x) = l.map (fun p => p.x) := by
  induction l with
  | nil => rfl
  | cons p t ih => simp [ih, passMark_x]

/-- The x-columns of the obstacle list after a Playing frame: the
surviving advanced pipes in their original order, with the freshly
spawned pipe (at the right screen edge) appended when the spawn trigger
fired. -/
theorem update_pipes_x (config : Config) (seed : ℕ) (state : GameState)
    (h : state.status = GameStatus.playing) :
    (update_game config seed state).1.pipes.map (fun p => p.x) =
      (keepPipes config (advancePipes config state.pipes)).map (fun p => p.x) ++
        (if needSpawn config (keepPipes config (advancePipes config state.pipes))
         then [config.screen_width] else []) := by
  rw [update_game_playing config seed state h]
  dsimp only
  rw [runScoring_pipes, map_x_passMark]
  unfold pipesAfterSpawn
  split
  · rw [List.map_append]
    rfl
  · simp

theorem mem_of_getLast?_eq {α : Type} {l : List α} {m : α} (h : l.getLast? = some m) :
    m ∈ l := by
  have hx : m ∈ l.getLast? := by rw [Option.mem_def, h]
  obtain ⟨hne, hm⟩ := List.mem_getLast?_eq_getLast hx
  rw [hm]
  exact List.getLast_mem hne

/-- In a list of pipes strictly sorted by increasing column, every member's
column is at most the last member's column. -/
theorem le_getLast_x_of_sorted {l : List Pipe}
    (hl : l.Pairwise (fun a b => a.x < b.x)) {a : Pipe} (ha : a ∈ l)
    {m : Pipe} (hm : l.getLast? = some m) : a.x ≤ m.x := by
  induction l with
  | nil => cases ha
  | cons b t ih =>
    rw [List.pairwise_cons] at hl
    cases t with
    | nil =>
      rw [List.getLast?_singleton] at hm
      have hab : a = b := by simpa using ha
      have hbm : b = m := by simpa using hm
      rw [hab, hbm]
    | cons c t2 =>
      rw [List.getLast?_cons_cons] at hm
      rcases List.mem_cons.mp ha with h | h
      · have hmem : m ∈ c :: t2 := mem_of_getLast?_eq hm
        rw [h]
        exact le_of_lt (hl.1 m hmem)
      · exact ih hl.2 h hm

/-! ### Claim C1 -/

/-- The obstacle of end-to-end scenario B: `gapCenter = 10`, `gapSize = 7`. -/
def pipeScenarioB : Pipe :=
  { x := 5, gap_y := 10, gap_size := 7, width := 4, passed := false }

/-- A bird at column 6 (inside the scenario obstacle's span `[5, 9)`) whose
row is the given integer. -/
def birdAtRow (r : ℤ) : Bird :=
  { x := 6, y := (r : ℚ), velocity := 0 }

theorem birdAtRow_row (r : ℤ) : birdRow (birdAtRow r) = r :=
  ratTrunc_intCast r

theorem birdAtRow_x (r : ℤ) : (birdAtRow r).x = 6 := rfl

theorem pipeScenarioB_x : pipeScenarioB.x = 5 := rfl

theorem gapTop_scenarioB : gapTop pipeScenarioB = 6 := by
  unfold gapTop
  exact ratTrunc_eval_half _ 6 (by norm_num [pipeScenarioB]) (by norm_num)

theorem gapBottom_scenarioB : gapBottom pipeScenarioB = 13 := by
  unfold gapBottom
  exact ratTrunc_eval_half _ 13 (by norm_num [pipeScenarioB]) (by norm_num)

/-- C1 counterexample: the claim asserts that with `gapCenter = 10` and
`gapSize = 7` a bird inside the obstacle's column span collides at row 6.
In the code `gap_top = int(10 - 7/2) = int(6.5) = 6`, so row 6 is inside
the gap band: the rendering predicate puts no pipe at `(6, 6)` and the
collision check reports no collision for a bird at row 6. -/
theorem C1_counterexample :
    is_pipe_at pipeScenarioB DEFAULT_CONFIG 6 6 = false ∧
    check_collision (birdAtRow 6) [pipeScenarioB] 20 DEFAULT_CONFIG = false := by
  constructor
  · unfold is_pipe_at
    simp only [gapTop_scenarioB, gapBottom_scenarioB, pipeScenarioB_x, dcPipeWidth]
    decide
  · unfold check_collision isInsideObstacle
    simp only [birdAtRow_row, birdAtRow_x, gapTop_scenarioB, gapBottom_scenarioB,
      pipeScenarioB_x, dcPipeWidth, List.any_cons, List.any_nil]
    decide

/-- C1 (amended): for an obstacle with `gapCenter = 10` and `gapSize = 7`
the gap band is rows 6 through 13 inclusive: a bird whose column lies
inside the obstacle's horizontal span does not collide at rows 6, 7 or 13,
and does collide at rows 5 or 14. -/
theorem C1_scenarioB_gap_band :
    gapTop pipeScenarioB = 6 ∧ gapBottom pipeScenarioB = 13 ∧
    check_collision (birdAtRow 6) [pipeScenarioB] 20 DEFAULT_CONFIG = false ∧
    check_collision (birdAtRow 7) [pipeScenarioB] 20 DEFAULT_CONFIG = false ∧
    check_collision (birdAtRow 13) [pipeScenarioB] 20 DEFAULT_CONFIG = false ∧
    check_collision (birdAtRow 5) [pipeScenarioB] 20 DEFAULT_CONFIG = true ∧
    check_collision (birdAtRow 14) [pipeScenarioB] 20 DEFAULT_CONFIG = true := by
  refine ⟨gapTop_scenarioB, gapBottom_scenarioB, ?_, ?_, ?_, ?_, ?_⟩ <;>
  · unfold check_collision isInsideObstacle
    simp only [birdAtRow_row, birdAtRow_x, gapTop_scenarioB, gapBottom_scenarioB,
      pipeScenarioB_x, dcPipeWidth, List.any_cons, List.any_nil]
    decide

/-! ### Claim C2 -/

/-- C2: collision is true iff the bird's row leaves `[0, fieldHeight - 1]`
or for some live obstacle the bird's column lies in
`[obstacle.x, obstacle.x + width)` while the bird's row lies outside the
gap band `[gapTop, gapBottom]` (the truncated-toward-zero bounds); and a
row exactly equal to either gap edge is never inside an obstacle. -/
theorem C2_collision_characterization (bird : Bird) (pipes : List Pipe)
    (fieldHeight : ℤ) (config : Config) :
    (check_collision bird pipes fieldHeight config = true ↔
      (birdRow bird < 0 ∨ birdRow bird > fieldHeight - 1 ∨
        ∃ p ∈ pipes, (p.x ≤ bird.x ∧ bird.x < p.x + config.pipe_width) ∧
          (birdRow bird < gapTop p ∨ gapBottom p < birdRow bird))) ∧
    (∀ p ∈ pipes, 0 ≤ p.gap_size →
      (birdRow bird = gapTop p ∨ birdRow bird = gapBottom p) →
      isInsideObstacle bird p config = false) := by
  constructor
  · unfold check_collision isInsideObstacle
    simp only [Bool.or_eq_true, decide_eq_true_eq, List.any_eq_true, Bool.and_eq_true,
      Bool.not_eq_true', decide_eq_false_iff_not]
    constructor
    · intro h
      rcases h with (h | h) | ⟨p, hp, hspan, hband⟩
      · exact Or.inl h
      · exact Or.inr (Or.inl h)
      · exact Or.inr (Or.inr ⟨p, hp, hspan, by omega⟩)
    · intro h
      rcases h with h | h | ⟨p, hp, hspan, hband⟩
      · exact Or.inl (Or.inl h)
      · exact Or.inl (Or.inr h)
      · exact Or.inr ⟨p, hp, hspan, by omega⟩
  · intro p hp hg hedge
    have hmono : gapTop p ≤ gapBottom p := by
      unfold gapTop gapBottom
      apply ratTrunc_mono
      have hg2 : (0 : ℚ) ≤ (p.gap_size : ℚ) := by exact_mod_cast hg
      linarith
    have hband : gapTop p ≤ birdRow bird ∧ birdRow bird ≤ gapBottom p := by
      rcases hedge with he | he <;> constructor <;> omega
    simp [isInsideObstacle, hband]

/-- Witness for C2: a bird at the exact top gap edge (row 6, inside the
obstacle's span) is not inside the obstacle. -/
theorem C2_witness :
    isInsideObstacle { x := 21, y := ((6 : ℤ) : ℚ), velocity := 0 }
      { x := 20, gap_y := 10, gap_size := 7, width := 4, passed := false }
      DEFAULT_CONFIG = false := by
  have h6 : birdRow { x := 21, y := ((6 : ℤ) : ℚ), velocity := 0 } = 6 :=
    ratTrunc_intCast 6
  have hgt : gapTop { x := 20, gap_y := 10, gap_size := 7, width := 4, passed := false } = 6 := by
    unfold gapTop
    exact ratTrunc_eval_half _ 6 (by norm_num) (by norm_num)
  exact (C2_collision_characterization
      { x := 21, y := ((6 : ℤ) : ℚ), velocity := 0 }
      [{ x := 20, gap_y := 10, gap_size := 7, width := 4, passed := false }]
      20 DEFAULT_CONFIG).2 _ (by simp) (by norm_num) (Or.inl (by rw [h6, hgt]))

/-! ### Claims C8, C9, C10 -/

/-- C8: from Prompted, declining (`n`/`N`) returns to Playing with the
ready flag cleared, and confirming (`y`/`Y`) moves to Exiting. -/
theorem C8_prompt_decline_and_confirm (config : Config) (s : GameState)
    (h : s.status = GameStatus.prompted) :
    handle_input config s (some 'n') =
      { s with claude_ready := false, status := GameStatus.playing } ∧
    handle_input config s (some 'N') =
      { s with claude_ready := false, status := GameStatus.playing } ∧
    handle_input config s (some 'y') = { s with status := GameStatus.exiting } ∧
    handle_input config s (some 'Y') = { s with status := GameStatus.exiting } := by
  refine ⟨?_, ?_, ?_, ?_⟩ <;> simp [handle_input, h]

/-- A concrete Prompted state. -/
def statePrompted : GameState :=
  { bird := { x := 10, y := (8 : ℚ), velocity := 1 }
    pipes := [{ x := 30, gap_y := 9, gap_size := 7, width := 4, passed := false }]
    score := 2, high_score := 5, status := GameStatus.prompted
    mode := GameMode.auto_restart, claude_ready := true }

/-- Witness for C8: the transitions evaluated on a concrete Prompted
state. -/
theorem C8_witness :
    statePrompted.status = GameStatus.prompted ∧
    handle_input DEFAULT_CONFIG statePrompted (some 'n') =
      { statePrompted with claude_ready := false, status := GameStatus.playing } := by
  refine ⟨rfl, ?_⟩
  exact (C8_prompt_decline_and_confirm DEFAULT_CONFIG statePrompted rfl).1

/-- C9: reading the readiness signal is total and defensive — true exactly
when the read succeeds with stripped content `"ready"`; a missing file
yields false, and an I/O error raised by the body is swallowed by the
handler and also yields false. -/
theorem C9_signal_check_total (r : SignalRead) :
    (check_signal_file r = true ↔
      ∃ text : String, r = SignalRead.content text ∧ text.trim = "ready") ∧
    check_signal_file SignalRead.missing = false ∧
    checkSignalBody SignalRead.ioError = Except.error () ∧
    check_signal_file SignalRead.ioError = false := by
  refine ⟨?_, rfl, rfl, rfl⟩
  cases r with
  | missing => simp [check_signal_file, checkSignalBody]
  | ioError => simp [check_signal_file, checkSignalBody]
  | content text => simp [check_signal_file, checkSignalBody]

/-- C10: a frame on a non-Playing state returns the state untouched and
performs no high-score write. -/
theorem C10_non_playing_frame_is_identity (config : Config) (seed : ℕ)
    (s : GameState) (h : s.status ≠ GameStatus.playing) :
    update_game config seed s = (s, []) := by
  unfold update_game
  rw [if_pos h]

/-- A concrete Dead state. -/
def stateDead : GameState :=
  { bird := { x := 10, y := (21 : ℚ), velocity := 3 }
    pipes := [{ x := 12, gap_y := 9, gap_size := 7, width := 4, passed := true }]
    score := 4, high_score := 9, status := GameStatus.dead
    mode := GameMode.single_life, claude_ready := false }

/-- Witness for C10: a concrete Dead state passes through a frame
untouched. -/
theorem C10_witness :
    stateDead.status ≠ GameStatus.playing ∧
    update_game DEFAULT_CONFIG 0 stateDead = (stateDead, []) :=
  ⟨by decide, C10_non_playing_frame_is_identity DEFAULT_CONFIG 0 stateDead (by decide)⟩

/-! ### Claim C3 -/

/-- When the spawn trigger fires on a strictly increasing obstacle list,
every live obstacle sits left of `screen_width - pipe_spacing`. -/
theorem needSpawn_true_bound {config : Config} {l : List Pipe}
    (hl : l.Pairwise (fun a b => a.x < b.x)) (h : needSpawn config l = true)
    {p : Pipe} (hp : p ∈ l) :
    p.x < config.screen_width - config.pipe_spacing := by
  unfold needSpawn at h
  cases hgl : l.getLast? with
  | none =>
    rw [List.getLast?_eq_none_iff] at hgl
    subst hgl
    cases hp
  | some m =>
    rw [hgl] at h
    simp only [decide_eq_true_eq] at h
    exact lt_of_le_of_lt (le_getLast_x_of_sorted hl hp hgl) h

/-- A concrete Playing state with a single live obstacle at column 35:
after one frame the advanced obstacle sits at column 34 and the spawn
trigger appends a new obstacle at column 60. -/
def stateC3 : GameState :=
  { bird := { x := 10, y := (5 : ℚ), velocity := 0 }
    pipes := [{ x := 35, gap_y := 10, gap_size := 7, width := 4, passed := false }]
    score := 0, high_score := 0, status := GameStatus.playing
    mode := GameMode.auto_restart, claude_ready := false }

/-- C3 counterexample: the claim says the obstacle list stays sorted by
decreasing `x`.  Starting from a (trivially decreasing-sorted) one-element
list, one frame produces columns `[34, 60]` — new obstacles are appended
at the right edge with the largest `x`, so the list is sorted by
increasing `x`, not decreasing. -/
theorem C3_counterexample :
    stateC3.pipes.Pairwise (fun a b : Pipe => b.x ≤ a.x) ∧
    (update_game DEFAULT_CONFIG 0 stateC3).1.pipes.map (fun p => p.x) = [34, 60] ∧
    ¬ (update_game DEFAULT_CONFIG 0 stateC3).1.pipes.Pairwise
        (fun a b : Pipe => b.x ≤ a.x) := by
  refine ⟨by decide, by decide, ?_⟩
  intro hpair
  have hmap : ((update_game DEFAULT_CONFIG 0 stateC3).1.pipes.map
      (fun p => p.x)).Pairwise (fun a b : ℤ => b ≤ a) :=
    List.pairwise_map.mpr hpair
  have hx : (update_game DEFAULT_CONFIG 0 stateC3).1.pipes.map (fun p => p.x) = [34, 60] := by
    decide
  rw [hx] at hmap
  rw [List.pairwise_cons] at hmap
  have h60 : (60 : ℤ) ≤ 34 := hmap.1 60 (by simp)
  omega

/-- C3 (amended): after every Playing frame the obstacle list stays sorted
by strictly increasing `x` in spawn order — the surviving obstacles keep
their original order, and a newly spawned obstacle is appended after all
older ones, at the right screen edge. -/
theorem C3_sorted_increasing_append (config : Config) (seed : ℕ) (s : GameState)
    (hst : s.status = GameStatus.playing)
    (hsorted : s.pipes.Pairwise (fun a b => a.x < b.x))
    (hspacing : 0 ≤ config.pipe_spacing) :
    (update_game config seed s).1.pipes.Pairwise (fun a b => a.x < b.x) ∧
    (update_game config seed s).1.pipes.map (fun p => p.x) =
      (keepPipes config (advancePipes config s.pipes)).map (fun p => p.x) ++
        (if needSpawn config (keepPipes config (advancePipes config s.pipes))
         then [config.screen_width] else []) := by
  refine ⟨?_, update_pipes_x config seed s hst⟩
  have hadv : (advancePipes config s.pipes).Pairwise (fun a b => a.x < b.x) := by
    unfold advancePipes
    rw [List.pairwise_map]
    exact hsorted.imp (fun h => by
      show _ - _ < _ - _
      omega)
  have hkept : (keepPipes config (advancePipes config s.pipes)).Pairwise
      (fun a b => a.x < b.x) := List.Pairwise.filter _ hadv
  refine List.pairwise_map.mp ?_
  rw [update_pipes_x config seed s hst]
  rw [List.pairwise_append]
  refine ⟨List.pairwise_map.mpr hkept, ?_, ?_⟩
  · split <;> simp
  · intro a ha b hb
    rcases hspawn : needSpawn config (keepPipes config (advancePipes config s.pipes)) with _ | _
    · rw [hspawn] at hb
      simp at hb
    · rw [hspawn] at hb
      simp only [if_pos, List.mem_singleton] at hb
      subst hb
      rw [List.mem_map] at ha
      obtain ⟨p, hp, hpa⟩ := ha
      have := needSpawn_true_bound hkept hspawn hp
      omega

/-- Witness for C3 (amended): one frame on the concrete state keeps the
list sorted by strictly increasing `x`. -/
theorem C3_witness :
    stateC3.status = GameStatus.playing ∧
    stateC3.pipes.Pairwise (fun a b : Pipe => a.x < b.x) ∧
    (0 : ℤ) ≤ DEFAULT_CONFIG.pipe_spacing ∧
    (update_game DEFAULT_CONFIG 0 stateC3).1.pipes.Pairwise
      (fun a b : Pipe => a.x < b.x) :=
  ⟨rfl, by decide, by decide,
    (C3_sorted_increasing_append DEFAULT_CONFIG 0 stateC3 rfl (by decide) (by decide)).1⟩

/-! ### Claim C4 -/

/-- C4: in a Playing frame, after all obstacles advance, exactly those
with `x ≤ -width` are removed; exactly one obstacle is spawned iff the
collection is empty or the most recent obstacle's `x` is below
`screen_width - pipe_spacing`; a spawn keeps the new obstacle at least
`pipe_spacing` columns from the previous one and places it at the right
screen edge, last in the list. -/
theorem C4_stream_policy (config : Config) (seed : ℕ) (s : GameState)
    (hst : s.status = GameStatus.playing) :
    (∀ p : Pipe, p ∈ keepPipes config (advancePipes config s.pipes) ↔
      p ∈ advancePipes config s.pipes ∧ ¬ (p.x ≤ -config.pipe_width)) ∧
    (update_game config seed s).1.pipes.length =
      (keepPipes config (advancePipes config s.pipes)).length +
        (if needSpawn config (keepPipes config (advancePipes config s.pipes))
         then 1 else 0) ∧
    (needSpawn config (keepPipes config (advancePipes config s.pipes)) = true ↔
      (keepPipes config (advancePipes config s.pipes) = [] ∨
        ∃ p : Pipe,
          (keepPipes config (advancePipes config s.pipes)).getLast? = some p ∧
          p.x < config.screen_width - config.pipe_spacing)) ∧
    (∀ p : Pipe,
      (keepPipes config (advancePipes config s.pipes)).getLast? = some p →
      needSpawn config (keepPipes config (advancePipes config s.pipes)) = true →
      config.pipe_spacing ≤ config.screen_width - p.x) ∧
    (needSpawn config (keepPipes config (advancePipes config s.pipes)) = true →
      ((update_game config seed s).1.pipes.map (fun p => p.x)).getLast? =
        some config.screen_width) := by
  refine ⟨?_, ?_, ?_, ?_, ?_⟩
  · intro p
    unfold keepPipes
    rw [List.mem_filter]
    simp only [decide_eq_true_eq]
    exact and_congr_right fun _ => by omega
  · have hmap := congrArg List.length (update_pipes_x config seed s hst)
    rw [List.length_map, List.length_append, List.length_map, apply_ite List.length] at hmap
    simpa using hmap
  · unfold needSpawn
    cases hgl : (keepPipes config (advancePipes config s.pipes)).getLast? with
    | none =>
      rw [List.getLast?_eq_none_iff] at hgl
      simp [hgl]
    | some m =>
      have hne : keepPipes config (advancePipes config s.pipes) ≠ [] := by
        intro hnil
        rw [hnil] at hgl
        cases hgl
      simp only [decide_eq_true_eq, hgl]
      constructor
      · intro h
        exact Or.inr ⟨m, rfl, h⟩
      · intro h
        rcases h with h | ⟨p, hpm, hpx⟩
        · exact absurd h hne
        · cases hpm
          exact hpx
  · intro p hgl hspawn
    unfold needSpawn at hspawn
    rw [hgl] at hspawn
    simp only [decide_eq_true_eq] at hspawn
    omega
  · intro hspawn
    rw [update_pipes_x config seed s hst, hspawn]
    simp only [if_pos]
    exact List.getLast?_concat _

/-- A concrete Playing state for the C4 witness: the live obstacle at
column 35 advances to 34, is retained, and triggers a spawn. -/
def stateC4 : GameState :=
  { bird := { x := 10, y := (5 : ℚ), velocity := 0 }
    pipes := [{ x := 35, gap_y := 9, gap_size := 7, width := 4, passed := false }]
    score := 1, high_score := 2, status := GameStatus.playing
    mode := GameMode.single_life, claude_ready := false }

/-- Witness for C4: the frame on a concrete Playing state spawns exactly
one obstacle. -/
theorem C4_witness :
    stateC4.status = GameStatus.playing ∧
    (update_game DEFAULT_CONFIG 0 stateC4).1.pipes.length =
      (keepPipes DEFAULT_CONFIG (advancePipes DEFAULT_CONFIG stateC4.pipes)).length +
        (if needSpawn DEFAULT_CONFIG
            (keepPipes DEFAULT_CONFIG (advancePipes DEFAULT_CONFIG stateC4.pipes))
         then 1 else 0) ∧
    (update_game DEFAULT_CONFIG 0 stateC4).1.pipes.length = 2 :=
  ⟨rfl, (C4_stream_policy DEFAULT_CONFIG 0 stateC4 rfl).2.1, by decide⟩

/-! ### Claim C5 -/

theorem randint_mem {a b : ℤ} (h : a ≤ b) (seed : ℕ) :
    a ≤ randint a b seed ∧ randint a b seed ≤ b := by
  unfold randint
  have hmod : seed % (b - a + 1).toNat < (b - a + 1).toNat :=
    Nat.mod_lt _ (by omega)
  omega

theorem randint_surj {a b : ℤ} (v : ℤ) (hv1 : a ≤ v) (hv2 : v ≤ b) :
    randint a b ((v - a).toNat) = v := by
  unfold randint
  have hmod : (v - a).toNat % (b - a + 1).toNat = (v - a).toNat :=
    Nat.mod_eq_of_lt (by omega)
  omega


/-- With `margin = gap_size.fdiv 2 + 2` and a gap center in
`[margin, height - margin]`, the truncated gap band keeps at least one
clear row at both screen edges. -/
theorem gap_band_buffer {g c h : ℤ} (hg : 0 ≤ g)
    (hc1 : g.fdiv 2 + 2 ≤ c) (hc2 : c ≤ h - (g.fdiv 2 + 2)) :
    1 ≤ ratTrunc ((c : ℚ) - (g : ℚ) / 2) ∧
    ratTrunc ((c : ℚ) + (g : ℚ) / 2) ≤ h - 2 := by
  have hfd : g.fdiv 2 = g / 2 := Int.fdiv_eq_ediv g (by norm_num)
  rw [hfd] at hc1 hc2
  have hk1 : 2 * (g / 2) ≤ g := by omega
  have hk2 : g ≤ 2 * (g / 2) + 1 := by omega
  have hq1 : ((g / 2 : ℤ) : ℚ) ≤ (g : ℚ) / 2 := by
    have h2 : ((2 * (g / 2) : ℤ) : ℚ) ≤ (g : ℚ) := by exact_mod_cast hk1
    push_cast at h2
    linarith
  have hq2 : (g : ℚ) / 2 ≤ ((g / 2 : ℤ) : ℚ) + 1 / 2 := by
    have h2 : ((g : ℤ) : ℚ) ≤ ((2 * (g / 2) + 1 : ℤ) : ℚ) := by exact_mod_cast hk2
    push_cast at h2
    linarith
  have hcq1 : ((g / 2 : ℤ) : ℚ) + 2 ≤ (c : ℚ) := by
    have h2 : ((g / 2 + 2 : ℤ) : ℚ) ≤ ((c : ℤ) : ℚ) := by exact_mod_cast hc1
    push_cast at h2
    linarith
  have hcq2 : (c : ℚ) ≤ (h : ℚ) - ((g / 2 : ℤ) : ℚ) - 2 := by
    have h2 : ((c : ℤ) : ℚ) ≤ ((h - (g / 2 + 2) : ℤ) : ℚ) := by exact_mod_cast hc2
    push_cast at h2
    linarith
  have hknn : (0 : ℚ) ≤ ((g / 2 : ℤ) : ℚ) := by
    exact_mod_cast (by omega : (0 : ℤ) ≤ g / 2)
  constructor
  · have h0 : (0 : ℚ) ≤ (c : ℚ) - (g : ℚ) / 2 := by linarith
    rw [ratTrunc_eq_floor h0, Int.le_floor]
    push_cast
    linarith
  · have h0 : (0 : ℚ) ≤ (c : ℚ) + (g : ℚ) / 2 := by linarith
    rw [ratTrunc_eq_floor h0, Int.floor_le_iff]
    push_cast
    linarith

/-- C5 counterexample: with the default configuration (`gapSize = 7`,
`fieldHeight = 20`) the margin is `7 // 2 + 2 = 5`, and the lowest
possible gap center 5 gives `gap_top = int(5 - 3.5) = 1`: only one clear
row remains above the gap band, not the claimed 2-row buffer. -/
theorem C5_counterexample :
    (spawn_pipe DEFAULT_CONFIG 0).gap_y = pipeMargin DEFAULT_CONFIG ∧
    gapTop (spawn_pipe DEFAULT_CONFIG 0) = 1 ∧
    ¬ 2 ≤ gapTop (spawn_pipe DEFAULT_CONFIG 0) := by
  have hy : (spawn_pipe DEFAULT_CONFIG 0).gap_y = 5 := by decide
  have hm : pipeMargin DEFAULT_CONFIG = 5 := by decide
  have ht : gapTop (spawn_pipe DEFAULT_CONFIG 0) = 1 := by
    unfold gapTop
    refine ratTrunc_eval_half _ 1 ?_ (by norm_num)
    rw [hy, show (spawn_pipe DEFAULT_CONFIG 0).gap_size = 7 from rfl]
    push_cast
    norm_num
  exact ⟨hy.trans hm.symm, ht, by rw [ht]; omega⟩

/-- C5 (amended): every spawned obstacle has `x = screen_width`,
`passed = false`, gap size and width taken verbatim from the
configuration, and a gap center ranging over exactly
`[margin, screen_height - margin]` with `margin = pipe_gap // 2 + 2`
(floor division); this keeps the gap band fully on-screen with at least a
one-row buffer at both edges for every possible gap center (for odd gap
sizes the top buffer can be exactly one row, so a two-row buffer is not
guaranteed). -/
theorem C5_spawn_contract (config : Config) (seed : ℕ)
    (hgap : 0 ≤ config.pipe_gap)
    (hrange : pipeMargin config ≤ config.screen_height - pipeMargin config) :
    (spawn_pipe config seed).x = config.screen_width ∧
    (spawn_pipe config seed).passed = false ∧
    (spawn_pipe config seed).gap_size = config.pipe_gap ∧
    (spawn_pipe config seed).width = config.pipe_width ∧
    pipeMargin config ≤ (spawn_pipe config seed).gap_y ∧
    (spawn_pipe config seed).gap_y ≤ config.screen_height - pipeMargin config ∧
    (∀ v : ℤ, pipeMargin config ≤ v → v ≤ config.screen_height - pipeMargin config →
      ∃ sd : ℕ, (spawn_pipe config sd).gap_y = v) ∧
    1 ≤ gapTop (spawn_pipe config seed) ∧
    gapBottom (spawn_pipe config seed) ≤ config.screen_height - 2 := by
  have hmem := randint_mem hrange seed
  have hc1 : config.pipe_gap.fdiv 2 + 2 ≤ (spawn_pipe config seed).gap_y := hmem.1
  have hc2 : (spawn_pipe config seed).gap_y ≤
      config.screen_height - (config.pipe_gap.fdiv 2 + 2) := hmem.2
  have hb := gap_band_buffer hgap hc1 hc2
  refine ⟨rfl, rfl, rfl, rfl, hmem.1, hmem.2, ?_, hb.1, hb.2⟩
  intro v hv1 hv2
  exact ⟨(v - pipeMargin config).toNat, randint_surj v hv1 hv2⟩

/-- Witness for C5 (amended): the spawn contract evaluated on the default
configuration at seed 3. -/
theorem C5_witness :
    0 ≤ DEFAULT_CONFIG.pipe_gap ∧
    pipeMargin DEFAULT_CONFIG ≤ DEFAULT_CONFIG.screen_height - pipeMargin DEFAULT_CONFIG ∧
    (spawn_pipe DEFAULT_CONFIG 3).x = DEFAULT_CONFIG.screen_width ∧
    1 ≤ gapTop (spawn_pipe DEFAULT_CONFIG 3) :=
  ⟨by decide, by decide,
    (C5_spawn_contract DEFAULT_CONFIG 3 (by decide) (by decide)).1,
    (C5_spawn_contract DEFAULT_CONFIG 3 (by decide) (by decide)).2.2.2.2.2.2.2.1⟩

/-! ### Claim C6 -/

/-- C6: in a Playing frame the scoring loop maps each obstacle through
`passMark` — an obstacle already passed is left untouched (the flag never
reverts and can never re-trigger), the flag of each obstacle afterwards is
its old flag or-ed with the pass condition, and the score grows by exactly
the number of obstacles whose pass event fires this frame. -/
theorem C6_scoring_one_shot (config : Config) (seed : ℕ) (s : GameState)
    (hst : s.status = GameStatus.playing) :
    (update_game config seed s).1.pipes =
      (pipesAfterSpawn config seed (keepPipes config (advancePipes config s.pipes))).map
        (passMark (apply_gravity s.bird config)) ∧
    (update_game config seed s).1.score =
      s.score +
        ((pipesAfterSpawn config seed
            (keepPipes config (advancePipes config s.pipes))).countP
          (passEvent (apply_gravity s.bird config)) : ℤ) ∧
    (∀ p : Pipe, p.passed = true → passMark (apply_gravity s.bird config) p = p) ∧
    (∀ p : Pipe, (passMark (apply_gravity s.bird config) p).passed =
      (p.passed || check_pipe_passed (apply_gravity s.bird config) p)) := by
  refine ⟨?_, ?_, fun p hp => passMark_of_passed _ p hp, fun p => passMark_passed _ p⟩
  · rw [update_game_playing config seed s hst]
    exact runScoring_pipes _ _ _ _
  · rw [update_game_playing config seed s hst]
    exact runScoring_score _ _ _ _

/-- A concrete Playing state whose single obstacle is passed this frame:
the obstacle advances from column 5 to 4, the bird at column 10 is past
its trailing edge `4 + 4 - 1`, and the score goes from 3 to 4. -/
def stateC6 : GameState :=
  { bird := { x := 10, y := (5 : ℚ), velocity := 0 }
    pipes := [{ x := 5, gap_y := 10, gap_size := 7, width := 4, passed := false }]
    score := 3, high_score := 10, status := GameStatus.playing
    mode := GameMode.auto_restart, claude_ready := false }

/-- Witness for C6: the score equation evaluated on a concrete frame with
one pass event. -/
theorem C6_witness :
    stateC6.status = GameStatus.playing ∧
    (update_game DEFAULT_CONFIG 0 stateC6).1.score =
      stateC6.score +
        ((pipesAfterSpawn DEFAULT_CONFIG 0
            (keepPipes DEFAULT_CONFIG (advancePipes DEFAULT_CONFIG stateC6.pipes))).countP
          (passEvent (apply_gravity stateC6.bird DEFAULT_CONFIG)) : ℤ) ∧
    (update_game DEFAULT_CONFIG 0 stateC6).1.score = 4 :=
  ⟨rfl, (C6_scoring_one_shot DEFAULT_CONFIG 0 stateC6 rfl).2.1, by decide⟩

/-! ### Claim C7 -/

/-- A frame on a non-Playing state returns immediately. -/
theorem update_game_non_playing (config : Config) (seed : ℕ) (s : GameState)
    (h : s.status ≠ GameStatus.playing) :
    update_game config seed s = (s, []) := by
  unfold update_game
  rw [if_pos h]

/-- The high score never decreases over a frame. -/
theorem update_high_score_le (config : Config) (seed : ℕ) (s : GameState) :
    s.high_score ≤ (update_game config seed s).1.high_score := by
  by_cases h : s.status = GameStatus.playing
  · rw [update_game_playing config seed s h]
    exact runScoring_high_score_le _ _ _ _
  · rw [update_game_non_playing config seed s h]

/-- The high score never decreases over any sequence of frames and
resets. -/
theorem events_high_score_le (config : Config) :
    ∀ (events : List SessionEvent) (s : GameState),
      s.high_score ≤ (events.foldl (applyEvent config) s).high_score := by
  intro events
  induction events with
  | nil => intro s; exact le_refl _
  | cons e t ih =>
    intro s
    rw [List.foldl_cons]
    refine le_trans ?_ (ih (applyEvent config s e))
    cases e with
    | step seed => exact update_high_score_le config seed s
    | reset => exact le_of_eq rfl

/-- C7: the high score is monotonically non-decreasing across any sequence
of frames and resets; a reset preserves it; in a frame where no write
happened it is unchanged, and in a frame that set a new record the last
value written to the store equals the new in-memory high score, which
equals the new score. -/
theorem C7_high_score_policy (config : Config) (s : GameState) :
    (∀ events : List SessionEvent,
      s.high_score ≤ (events.foldl (applyEvent config) s).high_score) ∧
    (s.reset config).high_score = s.high_score ∧
    (∀ seed : ℕ, s.high_score ≤ (update_game config seed s).1.high_score) ∧
    (∀ seed : ℕ, (update_game config seed s).2 = [] →
      (update_game config seed s).1.high_score = s.high_score) ∧
    (∀ seed : ℕ, s.high_score < (update_game config seed s).1.high_score →
      (update_game config seed s).2.getLast? =
        some (update_game config seed s).1.high_score) ∧
    (∀ seed : ℕ, s.high_score < (update_game config seed s).1.high_score →
      (update_game config seed s).1.high_score = (update_game config seed s).1.score) := by
  refine ⟨fun events => events_high_score_le config events s, rfl,
    fun seed => update_high_score_le config seed s, ?_, ?_, ?_⟩
  · intro seed hw
    by_cases h : s.status = GameStatus.playing
    · rw [update_game_playing config seed s h] at hw ⊢
      dsimp only at hw ⊢
      rcases runScoring_writes (apply_gravity s.bird config)
          (pipesAfterSpawn config seed (keepPipes config (advancePipes config s.pipes)))
          s.score s.high_score with ⟨h1, _⟩ | ⟨_, h2⟩
      · exact h1
      · rw [hw] at h2
        cases h2
    · rw [update_game_non_playing config seed s h]
  · intro seed hlt
    by_cases h : s.status = GameStatus.playing
    · rw [update_game_playing config seed s h] at hlt ⊢
      dsimp only at hlt ⊢
      rcases runScoring_writes (apply_gravity s.bird config)
          (pipesAfterSpawn config seed (keepPipes config (advancePipes config s.pipes)))
          s.score s.high_score with ⟨h1, _⟩ | ⟨_, h2⟩
      · rw [h1] at hlt
        exact absurd hlt (lt_irrefl _)
      · exact h2
    · rw [update_game_non_playing config seed s h] at hlt
      exact absurd hlt (lt_irrefl _)
  · intro seed hlt
    by_cases h : s.status = GameStatus.playing
    · rw [update_game_playing config seed s h] at hlt ⊢
      dsimp only at hlt ⊢
      have hmax := runScoring_high_score_max (apply_gravity s.bird config)
        (pipesAfterSpawn config seed (keepPipes config (advancePipes config s.pipes)))
        s.score s.high_score
      have hrec := runScoring_record_score (apply_gravity s.bird config)
        (pipesAfterSpawn config seed (keepPipes config (advancePipes config s.pipes)))
        s.score s.high_score hlt
      rw [le_max_iff] at hmax
      rcases hmax with h1 | h1
      · omega
      · omega
    · rw [update_game_non_playing config seed s h] at hlt
      exact absurd hlt (lt_irrefl _)

/-- A concrete Playing state whose frame sets a new record: score and
high score are both 3, one pass event raises the score to 4, updates the
high score to 4 and writes it to the store. -/
def stateC7 : GameState :=
  { bird := { x := 10, y := (5 : ℚ), velocity := 0 }
    pipes := [{ x := 5, gap_y := 10, gap_size := 7, width := 4, passed := false }]
    score := 3, high_score := 3, status := GameStatus.playing
    mode := GameMode.auto_restart, claude_ready := false }

/-- Witness for C7: a frame with a new record persists the new in-memory
high score as the last written value. -/
theorem C7_witness :
    stateC7.high_score < (update_game DEFAULT_CONFIG 0 stateC7).1.high_score ∧
    (update_game DEFAULT_CONFIG 0 stateC7).2.getLast? =
      some (update_game DEFAULT_CONFIG 0 stateC7).1.high_score :=
  ⟨by decide, (C7_high_score_policy DEFAULT_CONFIG stateC7).2.2.2.2.1 0 (by decide)⟩
